import Mathlib

set_option linter.unnecessarySeqFocus false
set_option linter.unnecessarySimpa false

/-!
Verification of the taxiapp ride-hailing client (Vue/TypeScript) against its
natural-language specification.  The development shallowly embeds the data
model of `src/types.ts` and the client-side state logic of
`src/views/RiderView.vue` and `src/views/DriverView.vue`: reactive refs become
record fields, each handler becomes a pure state-transformation function whose
server interaction (HTTP response, socket payload) is an explicit argument, and
the net effect of a handler on the reactive state is what the function returns.
Numbers (latitudes/longitudes) are modelled as rationals; no floating-point
arithmetic is performed by any of the embedded operations.
-/

namespace TaxiApp

/-- The `AppState` union type of `src/types.ts` (lines 7-14): the five
server-side trip statuses plus the two client-local values `idle` and
`finished` ("Kept for compatibility if needed"). -/
inductive AppState where
  | idle
  | REQUESTED
  | ACCEPTED
  | IN_PROGRESS
  | COMPLETED
  | CANCELLED
  | finished
deriving DecidableEq, Repr

/-- The five trip statuses named by the spec's glossary entry for
"Trip status". -/
def tripStatusValues : List AppState :=
  [.REQUESTED, .ACCEPTED, .IN_PROGRESS, .COMPLETED, .CANCELLED]

/-- All seven values of the `AppState` union of `src/types.ts`. -/
def appStateValues : List AppState :=
  [.idle, .REQUESTED, .ACCEPTED, .IN_PROGRESS, .COMPLETED, .CANCELLED, .finished]

/-- The `Car` interface of `src/types.ts` (lines 16-20). -/
structure Car where
  model : String
  color : String
  plate : String
deriving DecidableEq, Repr

/-- A latitude/longitude pair as used by the `pickupLocation` and
`dropoffLocation` fields of the `Trip` interface of `src/types.ts`. -/
structure LatLngQ where
  lat : ℚ
  lng : ℚ
deriving DecidableEq, Repr

/-- A GeoJSON point as built by `createTripRequest` in `RiderView.vue`
(lines 429-437): a `type` tag and an array of coordinates.  The coordinate
array is kept as a list because JavaScript arrays carry no length guarantee;
indexing out of range yields `undefined`, modelled by `Option`. -/
structure GeoPoint where
  type : String
  coordinates : List ℚ
deriving DecidableEq, Repr

/-- The data of the `Driver` interface of `src/types.ts` that the client logic
inspects, together with the runtime `location` field read by
`updateUIFromState` in `RiderView.vue` (lines 175-182).  The Leaflet `marker`
handle is a UI object outside the data model and is not represented. -/
structure DriverInfo where
  name : String
  car : Option Car
  location : Option GeoPoint
deriving DecidableEq, Repr

/-- A trip as delivered to the client at runtime by HTTP responses and socket
events: the fields that `RiderView.vue` and `DriverView.vue` actually read
(`_id`, `status`, `driverId` as a populated driver object, and the GeoJSON
`pickupLocation` read by `updateMapForActiveTrip` in `DriverView.vue`,
lines 371-374). -/
structure STrip where
  _id : String
  status : AppState
  driverId : Option DriverInfo
  pickupLocation : GeoPoint
deriving DecidableEq, Repr

/-- A reference to a driver on a trip record, per `src/types.ts` line 35:
`driverId?: Driver | string` — either a bare id or a populated driver. -/
inductive DriverRef where
  | id (s : String)
  | populated (name : String) (car : Car)
deriving DecidableEq, Repr

/-- The `Trip` interface of `src/types.ts` (lines 32-46): `_id`, `riderId`,
pickup/dropoff locations and `status` are required, `driverId` and `createdAt`
are optional. -/
structure Trip where
  _id : String
  riderId : String
  driverId : Option DriverRef
  pickupLocation : LatLngQ
  dropoffLocation : LatLngQ
  status : AppState
  createdAt : Option String
deriving DecidableEq, Repr

/-- A raw trip record as it could arrive over the wire, before the field
requirements of the `Trip` interface are imposed: every field may be absent. -/
structure RawTrip where
  _id : Option String
  riderId : Option String
  driverId : Option DriverRef
  pickupLocation : Option LatLngQ
  dropoffLocation : Option LatLngQ
  status : Option AppState
  createdAt : Option String
deriving DecidableEq, Repr

/-- Field-presence check transcribing the `Trip` interface declaration of
`src/types.ts`: a raw record is a `Trip` exactly when the non-optional fields
(`_id`, `riderId`, `pickupLocation`, `dropoffLocation`, `status`) are present;
`driverId` and `createdAt` (marked `?` in the interface) pass through
unchecked. -/
def parseTrip (raw : RawTrip) : Option Trip :=
  match raw._id, raw.riderId, raw.pickupLocation, raw.dropoffLocation, raw.status with
  | some i, some r, some p, some d, some s =>
      some { _id := i, riderId := r, driverId := raw.driverId,
             pickupLocation := p, dropoffLocation := d, status := s,
             createdAt := raw.createdAt }
  | _, _, _, _, _ => none

/-- GeoJSON encoding of a pickup position performed by `createTripRequest` in
`RiderView.vue` (lines 429-432): `coordinates: [pickupLatLng.lng,
pickupLatLng.lat]` with type tag `Point`. -/
def toGeoJSONPoint (p : LatLngQ) : GeoPoint :=
  { type := "Point", coordinates := [p.lng, p.lat] }

/-- Latitude read-out used by both clients: `coordinates[1]`
(`RiderView.vue` line 180, `DriverView.vue` line 372). -/
def geoLatitude (g : GeoPoint) : Option ℚ :=
  g.coordinates.get? 1

/-- Longitude read-out used by both clients: `coordinates[0]`
(`RiderView.vue` line 181, `DriverView.vue` line 373). -/
def geoLongitude (g : GeoPoint) : Option ℚ :=
  g.coordinates.get? 0

/-- Decoding a GeoJSON location into a map position, as both views do when
they build a Leaflet `latLng` from `coordinates[1]` (latitude) and
`coordinates[0]` (longitude). -/
def decodeLatLng (g : GeoPoint) : Option LatLngQ :=
  match geoLatitude g, geoLongitude g with
  | some la, some lo => some { lat := la, lng := lo }
  | _, _ => none

/-- A concrete `Trip` value whose `status` is the `AppState` value
`finished`, well-typed against the `Trip` interface of `src/types.ts`. -/
def finishedTrip : Trip :=
  { _id := "trip-finished", riderId := "rider-1", driverId := none,
    pickupLocation := { lat := 6, lng := -75 },
    dropoffLocation := { lat := 7, lng := -74 },
    status := .finished, createdAt := none }

/-- A value emitted on the client's socket connection.  `joinRideRoom`
carries the ride id the client asks to join (`RiderView.vue` line 141,
`DriverView.vue` lines 298 and 335); the room argument is `Option` because
the rider emits the raw `rideId` ref. -/
inductive SocketEmit where
  | joinRideRoom (room : Option String)
  | updateLocation (lat lng : ℚ)
deriving DecidableEq, Repr

-- ---------------------------------------------------------------------------
-- Rider client (src/views/RiderView.vue)
-- ---------------------------------------------------------------------------

/-- The reactive state of the rider view that the trip-lifecycle logic reads
and writes: `rideId`, `appState`, `assignedDriver`, `isRequesting` and
`destinationAddress` (`RiderView.vue` lines 24-38).  Map/marker handles,
status-message text and modal text are pure presentation and are not
modelled. -/
structure RiderClientState where
  rideId : Option String
  appState : AppState
  assignedDriver : Option DriverInfo
  isRequesting : Bool
  destinationAddress : String
deriving DecidableEq, Repr

/-- Initial rider state: `rideId = null`, `appState = 'idle'`, no assigned
driver, not requesting (`RiderView.vue` lines 24-36). -/
def riderInitState : RiderClientState :=
  { rideId := none, appState := .idle, assignedDriver := none,
    isRequesting := false, destinationAddress := "" }

/-- Net effect of `updateUIFromState` (`RiderView.vue` lines 157-270) on the
reactive state.  The function first assigns `appState := newState` and
`assignedDriver := driver`; the `CANCELLED` branch then resets the interface
(`isRequesting := false`, `appState := 'idle'`, `assignedDriver := null`,
`rideId := null`), and the `idle`/default branch (which `finished` also
reaches) resets `appState`, `assignedDriver` and the form fields.  The
`COMPLETED` branch keeps the `COMPLETED` state on screen and schedules a
later reset to `idle`, modelled as the separate `completedTimerFired`
event. -/
def updateUIFromState (s : RiderClientState) (newState : AppState)
    (driver : Option DriverInfo) : RiderClientState :=
  let s1 : RiderClientState := { s with appState := newState, assignedDriver := driver }
  match newState with
  | .REQUESTED => s1
  | .ACCEPTED => s1
  | .IN_PROGRESS => s1
  | .COMPLETED => s1
  | .CANCELLED =>
      { s1 with isRequesting := false, appState := .idle,
                assignedDriver := none, rideId := none }
  | _ =>
      { s1 with appState := .idle, assignedDriver := none,
                destinationAddress := "" }

/-- The events that drive the rider view's trip-status state, each carrying
the server payload (if any) that accompanies it in the code:
user actions, polling outcomes, HTTP responses and socket pushes. -/
inductive RiderEvent where
  /-- The user taps "Solicitar Viaje" (`requestRide`, lines 401-422). -/
  | userRequestRide
  /-- All polling attempts returned an empty driver list
  (`findDriverWithPolling`, lines 105-118). -/
  | nearbyExhausted
  /-- A polling attempt threw (`findDriverWithPolling`, lines 119-124). -/
  | nearbyError
  /-- `POST /api/trips/request` succeeded with the created trip's id
  (`createTripRequest`, lines 439-453). -/
  | tripCreateSuccess (tripId : String)
  /-- `POST /api/trips/request` failed (`createTripRequest`, lines 454-458). -/
  | tripCreateFailure
  /-- Socket push `trip-updated` (lines 144-147). -/
  | socketTripUpdated (t : STrip)
  /-- Socket push `trip-accepted` (lines 149-152). -/
  | socketTripAccepted (t : STrip) (d : DriverInfo)
  /-- `GET /api/trips/rider/active` returned an active trip
  (`checkForActiveRide`, lines 385-391). -/
  | activeRideFound (t : STrip)
  /-- `GET /api/trips/rider/active` returned no trip or failed
  (lines 392-398). -/
  | noActiveRide
  /-- `POST /api/trips/:id/cancel` succeeded; the response carries the
  cancelled trip, which the code passes to `updateUIFromState` in the driver
  slot for modal text only (line 485). -/
  | cancelSuccess (t : STrip)
  /-- The three-second timer scheduled by the `COMPLETED` branch fired
  (line 197). -/
  | completedTimerFired
deriving DecidableEq, Repr

/-- The trip status carried by a server response or server-pushed socket
event, if the event has one; user actions and timers carry none. -/
def serverStatus : RiderEvent → Option AppState
  | .socketTripUpdated t => some t.status
  | .socketTripAccepted t _ => some t.status
  | .activeRideFound t => some t.status
  | .cancelSuccess t => some t.status
  | _ => none

/-- One step of the rider view's state in response to an event, transcribed
from the handlers of `RiderView.vue`.  `userRequestRide` applies the guard of
`requestRide` (no destination or already requesting means no-op), sets
`isRequesting` and shows `REQUESTED` before any server call;
`cancelSuccess` runs `updateUIFromState('CANCELLED', response.data)`. -/
def riderStep (s : RiderClientState) (e : RiderEvent) : RiderClientState :=
  match e with
  | .userRequestRide =>
      if s.destinationAddress = "" ∨ s.isRequesting = true then s
      else updateUIFromState { s with isRequesting := true } .REQUESTED none
  | .nearbyExhausted =>
      updateUIFromState { s with isRequesting := false } .idle none
  | .nearbyError =>
      updateUIFromState s .idle none
  | .tripCreateSuccess tid => { s with rideId := some tid }
  | .tripCreateFailure => updateUIFromState s .idle none
  | .socketTripUpdated t => updateUIFromState s t.status t.driverId
  | .socketTripAccepted t d => updateUIFromState s t.status (some d)
  | .activeRideFound t =>
      updateUIFromState { s with rideId := some t._id } t.status t.driverId
  | .noActiveRide => updateUIFromState s .idle none
  | .cancelSuccess _ => updateUIFromState s .CANCELLED none
  | .completedTimerFired => updateUIFromState s .idle none

/-- The `joinRideRoom` emission of the rider's socket `connect` handler
(`RiderView.vue` lines 139-142): it emits the current `rideId` ref.
`setupSocketListeners` itself only runs when `rideId` is set (line 132). -/
def riderConnectEmit (s : RiderClientState) : SocketEmit :=
  .joinRideRoom s.rideId

-- ---------------------------------------------------------------------------
-- Rider driver-matching polling (RiderView.vue lines 40-43, 83-125, 401-422)
-- ---------------------------------------------------------------------------

/-- `MAX_POLLING_ATTEMPTS` (`RiderView.vue` line 42). -/
def MAX_POLLING_ATTEMPTS : ℕ := 3

/-- Outcome of one `GET /api/drivers/nearby` request: a driver list of a
given length, or a thrown error. -/
inductive NearbyOutcome where
  | ok (numDrivers : ℕ)
  | err
deriving DecidableEq, Repr

/-- Whether a nearby-drivers response is non-empty
(`response.data && response.data.length > 0`, line 96). -/
def hasDrivers : NearbyOutcome → Prop
  | .ok n => 0 < n
  | .err => False

instance : DecidablePred hasDrivers := by
  intro o
  cases o <;> simp [hasDrivers] <;> infer_instance

/-- Whether a nearby-drivers response is an empty (but successful) list. -/
def emptyOk : NearbyOutcome → Prop
  | .ok n => n = 0
  | .err => False

/-- Observable outcome of one polling run: how many nearby-driver requests
were made, how many trip-creation posts were issued, whether the UI was
returned to `idle`, and whether the user was shown an alert/dialog. -/
structure PollTrace where
  nearbyCalls : ℕ
  tripPosts : ℕ
  endedIdle : Bool
  alerted : Bool
deriving DecidableEq, Repr

/-- Sequentialisation of `findDriverWithPolling` (lines 83-125) driven by the
interval of `requestRide` (lines 415-421).  `attempts` is the current value of
`pollingAttempts`; `oracle k` is the outcome of the `k`-th nearby request;
`postOk` says whether the single `POST /api/trips/request` issued by
`createTripRequest` succeeds.  Each call increments the attempt counter; a
non-empty list stops the interval and issues the trip post (on post failure
the catch of `createTripRequest` alerts and resets to idle, lines 454-458); an
error stops the interval, alerts and resets to idle; an empty list with the
attempt budget exhausted stops the interval, shows the no-drivers dialog and
resets to idle; otherwise the interval (whose guard re-checks
`pollingAttempts < MAX_POLLING_ATTEMPTS`) runs the next attempt.  `fuel`
bounds the recursion and is instantiated with `MAX_POLLING_ATTEMPTS`. -/
def findDriverWithPolling (oracle : ℕ → NearbyOutcome) (postOk : Bool)
    (attempts : ℕ) : ℕ → PollTrace
  | 0 => { nearbyCalls := 0, tripPosts := 0, endedIdle := false, alerted := false }
  | fuel + 1 =>
      let a := attempts + 1
      match oracle a with
      | .err => { nearbyCalls := 1, tripPosts := 0, endedIdle := true, alerted := true }
      | .ok n =>
          if 0 < n then
            if postOk then
              { nearbyCalls := 1, tripPosts := 1, endedIdle := false, alerted := false }
            else
              { nearbyCalls := 1, tripPosts := 1, endedIdle := true, alerted := true }
          else if MAX_POLLING_ATTEMPTS ≤ a then
            { nearbyCalls := 1, tripPosts := 0, endedIdle := true, alerted := true }
          else
            let r := findDriverWithPolling oracle postOk a fuel
            { r with nearbyCalls := r.nearbyCalls + 1 }

/-- A full polling run as started by `requestRide` (lines 404-421):
`pollingAttempts` is reset to 0 and the attempt loop runs with budget
`MAX_POLLING_ATTEMPTS`. -/
def requestRidePolling (oracle : ℕ → NearbyOutcome) (postOk : Bool) : PollTrace :=
  findDriverWithPolling oracle postOk 0 MAX_POLLING_ATTEMPTS

-- ---------------------------------------------------------------------------
-- Driver client (src/views/DriverView.vue)
-- ---------------------------------------------------------------------------

/-- The reactive state of the driver view that the trip logic reads and
writes: `isAvailable`, `activeTrip` and `tripRequests` (`DriverView.vue`
lines 25-28).  `isLoadingAvailability` is set and cleared inside the same
handler (net effect `false`) and is not carried; map/marker handles are
presentation only. -/
structure DriverClientState where
  isAvailable : Bool
  activeTrip : Option STrip
  tripRequests : List STrip
deriving DecidableEq, Repr

/-- Initial driver state (`DriverView.vue` lines 25-28): offline, no active
trip, empty request list. -/
def driverInitState : DriverClientState :=
  { isAvailable := false, activeTrip := none, tripRequests := [] }

/-- `toggleAvailability` (`DriverView.vue` lines 306-324): computes
`newAvailability = !isAvailable` and PATCHes it to
`/api/drivers/availability`.  The second argument says whether that request
succeeds.  On success the flag is set to the sent value and, when going
offline, `tripRequests` is cleared; on failure the handler only alerts.
Returns the new state and the `isAvailable` value sent in the PATCH body. -/
def toggleAvailability (s : DriverClientState) (requestOk : Bool) :
    DriverClientState × Bool :=
  let newAvailability := !s.isAvailable
  if requestOk then
    ({ s with isAvailable := newAvailability,
              tripRequests := if newAvailability then s.tripRequests else [] },
     newAvailability)
  else
    (s, newAvailability)

/-- `acceptTrip` (`DriverView.vue` lines 326-343): POSTs to
`/api/trips/:id/accept`.  On success (`resp = some trip`, the response body)
the trip becomes active, the driver becomes unavailable, the request list is
cleared and `joinRideRoom` is emitted with the accepted trip's id; on failure
the handler alerts and removes the failed trip from the request list.
Returns the new state and the socket emissions. -/
def acceptTrip (s : DriverClientState) (tripId : String) (resp : Option STrip) :
    DriverClientState × List SocketEmit :=
  match resp with
  | some trip =>
      ({ s with activeTrip := some trip, isAvailable := false, tripRequests := [] },
       [.joinRideRoom (some tripId)])
  | none =>
      ({ s with tripRequests := s.tripRequests.filter (fun t => t._id ≠ tripId) },
       [])

/-- The `action` argument of `handleTripAction`. -/
inductive TripAction where
  | start
  | complete
deriving DecidableEq, Repr

/-- `handleTripAction` (`DriverView.vue` lines 345-366): no-op without an
active trip; on a successful POST to `/api/trips/:id/start` or `/:id/complete`
the active trip is replaced by the response, and a completed trip additionally
clears `activeTrip` and sets the driver available again; on failure the
handler only alerts. -/
def handleTripAction (s : DriverClientState) (action : TripAction)
    (resp : Option STrip) : DriverClientState :=
  match s.activeTrip with
  | none => s
  | some _ =>
      match resp with
      | none => s
      | some updated =>
          match action with
          | .start => { s with activeTrip := some updated }
          | .complete => { s with activeTrip := none, isAvailable := true }

/-- The `new-trip-request` socket handler (`DriverView.vue` lines 203-208):
the incoming trip is appended to `tripRequests` only when the driver is
available and has no active trip. -/
def onNewTripRequest (s : DriverClientState) (t : STrip) : DriverClientState :=
  if s.isAvailable && s.activeTrip.isNone then
    { s with tripRequests := s.tripRequests ++ [t] }
  else s

/-- The `trip-unavailable` socket handler (`DriverView.vue` lines 210-213):
the named trip is filtered out of the request list. -/
def onTripUnavailable (s : DriverClientState) (tripId : String) : DriverClientState :=
  { s with tripRequests := s.tripRequests.filter (fun t => t._id ≠ tripId) }

/-- The `trip-updated` socket handler (`DriverView.vue` lines 215-236): only
updates matter when they concern the active trip; the active trip is replaced
by the update, a `CANCELLED` update clears it and makes the driver available
again, and a `COMPLETED` update clears it. -/
def onTripUpdated (s : DriverClientState) (updated : STrip) : DriverClientState :=
  match s.activeTrip with
  | none => s
  | some a =>
      if a._id = updated._id then
        if updated.status = .CANCELLED then
          { s with activeTrip := none, isAvailable := true }
        else if updated.status = .COMPLETED then
          { s with activeTrip := none }
        else
          { s with activeTrip := some updated }
      else s

/-- `fetchDriverState` (`DriverView.vue` lines 280-304): `GET /api/drivers/me`
returns the stored availability flag and the active trip, if any.  On error
nothing changes; otherwise `isAvailable` is set from the database, and an
active trip overrides it to `false`, becomes the active trip and triggers a
`joinRideRoom` emission with the trip's id. -/
def fetchDriverState (s : DriverClientState)
    (resp : Option (Bool × Option STrip)) : DriverClientState × List SocketEmit :=
  match resp with
  | none => (s, [])
  | some (avail, none) => ({ s with isAvailable := avail }, [])
  | some (_, some trip) =>
      ({ s with isAvailable := false, activeTrip := some trip },
       [.joinRideRoom (some trip._id)])

/-- One step of the driver client: any handler fires with any server
response or socket payload.  The availability toggle carries the guard of its
button, which the template disables while a trip is active
(`DriverView.vue` line 431: `:disabled="isLoadingAvailability || !!activeTrip"`). -/
inductive DriverStep : DriverClientState → DriverClientState → Prop
  | toggle (s : DriverClientState) (ok : Bool) (hguard : s.activeTrip = none) :
      DriverStep s (toggleAvailability s ok).1
  | accept (s : DriverClientState) (tid : String) (resp : Option STrip) :
      DriverStep s (acceptTrip s tid resp).1
  | act (s : DriverClientState) (a : TripAction) (resp : Option STrip) :
      DriverStep s (handleTripAction s a resp)
  | newReq (s : DriverClientState) (t : STrip) :
      DriverStep s (onNewTripRequest s t)
  | unavail (s : DriverClientState) (tid : String) :
      DriverStep s (onTripUnavailable s tid)
  | updated (s : DriverClientState) (t : STrip) :
      DriverStep s (onTripUpdated s t)

/-- Reachable driver-client states: the view mounts in `driverInitState`,
runs `fetchDriverState` once (`onMounted`, line 105), and then evolves by
handler steps. -/
inductive DriverReachable : DriverClientState → Prop
  | boot (resp : Option (Bool × Option STrip)) :
      DriverReachable (fetchDriverState driverInitState resp).1
  | step {s s' : DriverClientState} :
      DriverReachable s → DriverStep s s' → DriverReachable s'

-- ---------------------------------------------------------------------------
-- REST and socket interface boundary
-- ---------------------------------------------------------------------------

/-- HTTP method of a client request. -/
inductive HttpMethod where
  | get
  | post
  | patch
deriving DecidableEq, Repr

/-- A REST request issued by the client: method, path and optional query
string (the backend base URL prefix is configuration, not interface shape). -/
structure ApiCall where
  method : HttpMethod
  path : String
  query : Option String
deriving DecidableEq, Repr

/-- The trip-creation request of `createTripRequest` (`RiderView.vue`
lines 439-449): `POST /api/trips/request`. -/
def createTripRequestCall : ApiCall :=
  { method := .post, path := "/api/trips/request", query := none }

/-- The acceptance request of `acceptTrip` (`DriverView.vue` line 328):
`POST /api/trips/:id/accept`. -/
def acceptTripCall (tripId : String) : ApiCall :=
  { method := .post, path := "/api/trips/" ++ tripId ++ "/accept", query := none }

/-- The nearby-driver lookup of `findDriverWithPolling` (`RiderView.vue`
lines 90-93): `GET /api/drivers/nearby?lat=..&lng=..`. -/
def nearbyDriversCall (lat lng : String) : ApiCall :=
  { method := .get, path := "/api/drivers/nearby",
    query := some ("lat=" ++ lat ++ "&lng=" ++ lng) }

/-- The availability update of `toggleAvailability` (`DriverView.vue`
lines 310-312): `PATCH /api/drivers/availability`. -/
def availabilityCall : ApiCall :=
  { method := .patch, path := "/api/drivers/availability", query := none }

/-- The socket events the rider view subscribes to
(`RiderView.vue` lines 139-154). -/
def riderSocketSubscriptions : List String :=
  ["connect", "trip-updated", "trip-accepted", "disconnect"]

/-- The socket events the driver view subscribes to
(`DriverView.vue` lines 199-236). -/
def driverSocketSubscriptions : List String :=
  ["connect", "new-trip-request", "trip-unavailable", "trip-updated"]

-- ---------------------------------------------------------------------------
-- Concrete sample values used to instantiate the theorems
-- ---------------------------------------------------------------------------

/-- A sample GeoJSON pickup point (Medellín). -/
def sampleGeo : GeoPoint :=
  { type := "Point", coordinates := [-75, 6] }

/-- A sample trip in status `ACCEPTED` as a server would push it. -/
def sampleAcceptedTrip : STrip :=
  { _id := "trip-1", status := .ACCEPTED, driverId := none,
    pickupLocation := sampleGeo }

/-- A sample trip in status `REQUESTED` as pushed by `new-trip-request`. -/
def sampleRequestedTrip : STrip :=
  { _id := "trip-2", status := .REQUESTED, driverId := none,
    pickupLocation := sampleGeo }

/-- A rider at the idle screen with a destination typed in, ready to tap
"Solicitar Viaje". -/
def riderIdleReady : RiderClientState :=
  { riderInitState with destinationAddress := "Centro" }

/-- A rider with an active ride request. -/
def riderWithRide : RiderClientState :=
  { riderInitState with
    rideId := some "ride-1",
    appState := .REQUESTED,
    isRequesting := true }

/-- An online driver with one pending trip request. -/
def sampleOnlineDriver : DriverClientState :=
  { isAvailable := true, activeTrip := none,
    tripRequests := [sampleRequestedTrip] }

/-- A raw wire-format trip with all required fields present and no driver
assigned. -/
def sampleRawTrip : RawTrip :=
  { _id := some "trip-raw", riderId := some "rider-1", driverId := none,
    pickupLocation := some { lat := 6, lng := -75 },
    dropoffLocation := some { lat := 7, lng := -74 },
    status := some .REQUESTED, createdAt := none }

end TaxiApp

namespace TaxiApp

/-- C5 counterexample: the claim says no trip-status value outside the
five-element set REQUESTED/ACCEPTED/IN_PROGRESS/COMPLETED/CANCELLED is
representable, but the `status` field of `Trip` has type `AppState`, which
also contains `idle` and `finished`; `finishedTrip` is a well-typed `Trip`
whose status lies outside the five-element set. -/
theorem C5_trip_status_counterexample :
    finishedTrip.status ∉ tripStatusValues := by
  decide

/-- C5 (amended): every `Trip` status belongs to the seven-value `AppState`
union of `src/types.ts` — the five server statuses plus the client-local
`idle` and `finished` (the latter kept for compatibility); no value outside
these seven is representable. -/
theorem C5_trip_status_in_appState (t : Trip) :
    t.status ∈ appStateValues := by
  cases h : t.status <;> simp [appStateValues]

/-- C6: a raw record passes the `Trip` field requirements exactly when the
required fields are present — in particular `riderId`, `pickupLocation`,
`dropoffLocation` and `status` must be populated — and presence of the
optional `driverId` is irrelevant to acceptance (the record also requires
`_id`, which the claim does not mention and which is likewise required by
the interface). -/
theorem C6_trip_required_fields (raw : RawTrip) :
    ((parseTrip raw).isSome = true ↔
      (raw._id.isSome = true ∧ raw.riderId.isSome = true ∧
       raw.pickupLocation.isSome = true ∧ raw.dropoffLocation.isSome = true ∧
       raw.status.isSome = true)) ∧
    (parseTrip raw).isSome = (parseTrip { raw with driverId := none }).isSome := by
  constructor
  · constructor
    · intro h
      cases hi : raw._id <;> cases hr : raw.riderId <;>
        cases hp : raw.pickupLocation <;> cases hd : raw.dropoffLocation <;>
        cases hs : raw.status <;>
        simp_all [parseTrip]
    · rintro ⟨hi, hr, hp, hd, hs⟩
      cases hi2 : raw._id <;> cases hr2 : raw.riderId <;>
        cases hp2 : raw.pickupLocation <;> cases hd2 : raw.dropoffLocation <;>
        cases hs2 : raw.status <;>
        simp_all [parseTrip]
  · cases hi2 : raw._id <;> cases hr2 : raw.riderId <;>
      cases hp2 : raw.pickupLocation <;> cases hd2 : raw.dropoffLocation <;>
      cases hs2 : raw.status <;>
      simp_all [parseTrip]

/-- Witness for the C6 theorem: a raw record with every required field
present — and no driver assigned — passes the `Trip` field requirements. -/
theorem C6_trip_required_fields_witness :
    (parseTrip sampleRawTrip).isSome = true :=
  (C6_trip_required_fields sampleRawTrip).1.mpr (by decide)

/-- C8: decoding a GeoJSON point after encoding a position returns the
original position — `toGeoJSONPoint` stores `[lng, lat]` and `decodeLatLng`
reads latitude from index 1 and longitude from index 0, so decode is a left
inverse of encode. -/
theorem C8_geojson_round_trip (p : LatLngQ) :
    decodeLatLng (toGeoJSONPoint p) = some p := by
  cases p
  rfl

/-- C1 counterexample: tapping "Solicitar Viaje" from the idle screen moves
the client's trip-status state to `REQUESTED` before any server response or
socket event — `requestRide` calls `updateUIFromState('REQUESTED', null)`
directly (`RiderView.vue` line 407), and the user-tap event carries no
server-originated status. -/
theorem C1_requested_set_locally :
    (riderStep riderIdleReady .userRequestRide).appState = .REQUESTED
    ∧ riderIdleReady.appState ≠ .REQUESTED
    ∧ AppState.REQUESTED ∈ tripStatusValues
    ∧ serverStatus .userRequestRide = none := by
  decide

/-- C1 (amended): whenever the rider client's trip-status state changes to
one of the five statuses, either the new value is exactly the status carried
by the server response or server-pushed socket event being handled, or the
new value is `REQUESTED` and was set locally by `requestRide` when the user
requested a ride (before any server response).  All other transitions land on
the client-local `idle` state. -/
theorem C1_status_changes_server_originated (s : RiderClientState)
    (e : RiderEvent) (hchange : (riderStep s e).appState ≠ s.appState)
    (hmem : (riderStep s e).appState ∈ tripStatusValues) :
    serverStatus e = some (riderStep s e).appState
    ∨ ((riderStep s e).appState = .REQUESTED ∧ e = .userRequestRide) := by
  cases e with
  | userRequestRide =>
      by_cases hg : s.destinationAddress = "" ∨ s.isRequesting = true
      · exact absurd (by simp [riderStep, hg]) hchange
      · right
        exact ⟨by simp [riderStep, hg, updateUIFromState], rfl⟩
  | nearbyExhausted =>
      simp [riderStep, updateUIFromState, tripStatusValues] at hmem
  | nearbyError =>
      simp [riderStep, updateUIFromState, tripStatusValues] at hmem
  | tripCreateSuccess tid =>
      exact absurd rfl hchange
  | tripCreateFailure =>
      simp [riderStep, updateUIFromState, tripStatusValues] at hmem
  | socketTripUpdated t =>
      left
      cases ht : t.status <;>
        simp_all [riderStep, updateUIFromState, serverStatus, tripStatusValues]
  | socketTripAccepted t d =>
      left
      cases ht : t.status <;>
        simp_all [riderStep, updateUIFromState, serverStatus, tripStatusValues]
  | activeRideFound t =>
      left
      cases ht : t.status <;>
        simp_all [riderStep, updateUIFromState, serverStatus, tripStatusValues]
  | noActiveRide =>
      simp [riderStep, updateUIFromState, tripStatusValues] at hmem
  | cancelSuccess t =>
      simp [riderStep, updateUIFromState, tripStatusValues] at hmem
  | completedTimerFired =>
      simp [riderStep, updateUIFromState, tripStatusValues] at hmem

/-- Witness for the amended C1 theorem: a `trip-updated` socket push carrying
an `ACCEPTED` trip changes the idle rider's state to `ACCEPTED`, and the new
value is exactly the server-pushed status. -/
theorem C1_status_changes_server_originated_witness :
    serverStatus (RiderEvent.socketTripUpdated sampleAcceptedTrip)
      = some (riderStep riderIdleReady
          (RiderEvent.socketTripUpdated sampleAcceptedTrip)).appState
    ∨ ((riderStep riderIdleReady
          (RiderEvent.socketTripUpdated sampleAcceptedTrip)).appState = .REQUESTED
        ∧ RiderEvent.socketTripUpdated sampleAcceptedTrip = .userRequestRide) :=
  C1_status_changes_server_originated riderIdleReady
    (RiderEvent.socketTripUpdated sampleAcceptedTrip) (by decide) (by decide)

/-- Characterisation of one polling run of `findDriverWithPolling`: when the
attempt counter plus remaining budget equals `MAX_POLLING_ATTEMPTS` and some
budget remains, the run makes between 1 and `fuel` nearby requests, issues a
trip post exactly when its last nearby request found drivers, all earlier
requests returned empty lists, a run with no trip post ends idle with the
user alerted, and a run whose trip post succeeds does not reset to idle. -/
lemma findDriverWithPolling_spec (oracle : ℕ → NearbyOutcome) (postOk : Bool) :
    ∀ fuel attempts, attempts + fuel = MAX_POLLING_ATTEMPTS → 0 < fuel →
      (1 ≤ (findDriverWithPolling oracle postOk attempts fuel).nearbyCalls
        ∧ (findDriverWithPolling oracle postOk attempts fuel).nearbyCalls ≤ fuel)
      ∧ ((findDriverWithPolling oracle postOk attempts fuel).tripPosts = 1 ↔
          hasDrivers (oracle (attempts +
            (findDriverWithPolling oracle postOk attempts fuel).nearbyCalls)))
      ∧ (findDriverWithPolling oracle postOk attempts fuel).tripPosts ≤ 1
      ∧ (∀ j, 1 ≤ j →
          j < (findDriverWithPolling oracle postOk attempts fuel).nearbyCalls →
          emptyOk (oracle (attempts + j)))
      ∧ ((findDriverWithPolling oracle postOk attempts fuel).tripPosts = 0 →
          (findDriverWithPolling oracle postOk attempts fuel).endedIdle = true
          ∧ (findDriverWithPolling oracle postOk attempts fuel).alerted = true)
      ∧ ((findDriverWithPolling oracle postOk attempts fuel).tripPosts = 1 →
          postOk = true →
          (findDriverWithPolling oracle postOk attempts fuel).endedIdle = false) := by
  intro fuel
  induction fuel with
  | zero =>
      intro attempts _ hpos
      exact absurd hpos (by omega)
  | succ f ih =>
      intro attempts hsum _
      cases ho : oracle (attempts + 1) with
      | err =>
          refine ⟨⟨?_, ?_⟩, ?_, ?_, ?_, ?_, ?_⟩ <;>
            simp [findDriverWithPolling, ho, hasDrivers, emptyOk] <;> try omega
      | ok n =>
          by_cases hn : 0 < n
          · cases postOk with
            | true =>
                refine ⟨⟨?_, ?_⟩, ?_, ?_, ?_, ?_, ?_⟩ <;>
                  simp [findDriverWithPolling, ho, hn, hasDrivers, emptyOk] <;> try omega
            | false =>
                refine ⟨⟨?_, ?_⟩, ?_, ?_, ?_, ?_, ?_⟩ <;>
                  simp [findDriverWithPolling, ho, hn, hasDrivers, emptyOk] <;> try omega
          · by_cases hm : MAX_POLLING_ATTEMPTS ≤ attempts + 1
            · refine ⟨⟨?_, ?_⟩, ?_, ?_, ?_, ?_, ?_⟩ <;>
                simp [findDriverWithPolling, ho, hn, hm, hasDrivers, emptyOk] <;> try omega
            · have hf : 0 < f := by
                simp only [MAX_POLLING_ATTEMPTS] at hsum hm
                omega
              have hsum' : (attempts + 1) + f = MAX_POLLING_ATTEMPTS := by omega
              obtain ⟨⟨ih1, ih2⟩, ih3, ih4, ih5, ih6, ih7⟩ := ih (attempts + 1) hsum' hf
              have hc : (findDriverWithPolling oracle postOk attempts (f + 1)).nearbyCalls
                  = (findDriverWithPolling oracle postOk (attempts + 1) f).nearbyCalls + 1 := by
                simp [findDriverWithPolling, ho, hn, hm]
              have hp : (findDriverWithPolling oracle postOk attempts (f + 1)).tripPosts
                  = (findDriverWithPolling oracle postOk (attempts + 1) f).tripPosts := by
                simp [findDriverWithPolling, ho, hn, hm]
              have hid : (findDriverWithPolling oracle postOk attempts (f + 1)).endedIdle
                  = (findDriverWithPolling oracle postOk (attempts + 1) f).endedIdle := by
                simp [findDriverWithPolling, ho, hn, hm]
              have hal : (findDriverWithPolling oracle postOk attempts (f + 1)).alerted
                  = (findDriverWithPolling oracle postOk (attempts + 1) f).alerted := by
                simp [findDriverWithPolling, ho, hn, hm]
              rw [hc, hp, hid, hal]
              refine ⟨⟨by omega, by omega⟩, ?_, ih4, ?_, ih6, ih7⟩
              · have harith : attempts +
                    ((findDriverWithPolling oracle postOk (attempts + 1) f).nearbyCalls + 1)
                    = (attempts + 1) +
                      (findDriverWithPolling oracle postOk (attempts + 1) f).nearbyCalls := by
                  omega
                rw [harith]
                exact ih3
              · intro j hj1 hj2
                rcases Nat.lt_or_ge j 2 with hj | hj
                · have hj' : j = 1 := by omega
                  subst hj'
                  have hn0 : n = 0 := by omega
                  simp [ho, emptyOk, hn0]
                · have hb1 : 1 ≤ j - 1 := by omega
                  have hb2 : j - 1 <
                      (findDriverWithPolling oracle postOk (attempts + 1) f).nearbyCalls := by
                    omega
                  have hspec := ih5 (j - 1) hb1 hb2
                  have harith : (attempts + 1) + (j - 1) = attempts + j := by omega
                  rwa [harith] at hspec

/-- C2: the driver-matching polling of `requestRide`/`findDriverWithPolling`
always terminates with between 1 and `MAX_POLLING_ATTEMPTS` (3) requests to
`/api/drivers/nearby`; if some attempt returns a non-empty driver list then
exactly one `POST /api/trips/request` is issued, and when that post succeeds
the interface does not reset to idle; if every attempt made returned an empty
list or errored, no trip request is issued and the run ends with the
interface reset to idle and the user notified. -/
theorem C2_polling_terminates_bounded (oracle : ℕ → NearbyOutcome) (postOk : Bool) :
    (1 ≤ (requestRidePolling oracle postOk).nearbyCalls
      ∧ (requestRidePolling oracle postOk).nearbyCalls ≤ MAX_POLLING_ATTEMPTS)
    ∧ (requestRidePolling oracle postOk).tripPosts ≤ 1
    ∧ ((∃ j, 1 ≤ j ∧ j ≤ (requestRidePolling oracle postOk).nearbyCalls
          ∧ hasDrivers (oracle j)) →
        (requestRidePolling oracle postOk).tripPosts = 1)
    ∧ ((∀ j, 1 ≤ j → j ≤ (requestRidePolling oracle postOk).nearbyCalls →
          ¬ hasDrivers (oracle j)) →
        (requestRidePolling oracle postOk).tripPosts = 0
        ∧ (requestRidePolling oracle postOk).endedIdle = true
        ∧ (requestRidePolling oracle postOk).alerted = true)
    ∧ ((requestRidePolling oracle postOk).tripPosts = 1 → postOk = true →
        (requestRidePolling oracle postOk).endedIdle = false) := by
  simp only [requestRidePolling]
  obtain ⟨⟨h1, h2⟩, h3, h4, h5, h6, h7⟩ :=
    findDriverWithPolling_spec oracle postOk MAX_POLLING_ATTEMPTS 0
      (Nat.zero_add _) (by decide)
  simp only [Nat.zero_add] at h3 h5
  refine ⟨⟨h1, h2⟩, h4, ?_, ?_, h7⟩
  · rintro ⟨j, hj1, hj2, hjd⟩
    rcases Nat.lt_or_ge j
        (findDriverWithPolling oracle postOk 0 MAX_POLLING_ATTEMPTS).nearbyCalls
        with hlt | hge
    · exfalso
      have hemp := h5 j hj1 hlt
      cases hoj : oracle j with
      | err => rw [hoj] at hemp hjd; exact hjd
      | ok n =>
          rw [hoj] at hemp hjd
          simp [emptyOk] at hemp
          simp [hasDrivers, hemp] at hjd
    · have hj : j
          = (findDriverWithPolling oracle postOk 0 MAX_POLLING_ATTEMPTS).nearbyCalls := by
        omega
      subst hj
      exact h3.mpr hjd
  · intro hall
    have hpost0 :
        (findDriverWithPolling oracle postOk 0 MAX_POLLING_ATTEMPTS).tripPosts = 0 := by
      rcases Nat.lt_or_ge
          (findDriverWithPolling oracle postOk 0 MAX_POLLING_ATTEMPTS).tripPosts 1 with h | h
      · omega
      · exfalso
        have heq :
            (findDriverWithPolling oracle postOk 0 MAX_POLLING_ATTEMPTS).tripPosts = 1 := by
          omega
        exact hall _ h1 (le_refl _) (h3.mp heq)
    obtain ⟨hi, ha⟩ := h6 hpost0
    exact ⟨hpost0, hi, ha⟩

/-- Witness for the C2 theorem: an oracle whose first nearby request returns
two drivers yields exactly one trip-creation post. -/
theorem C2_polling_terminates_bounded_witness :
    (requestRidePolling (fun _ => NearbyOutcome.ok 2) true).tripPosts = 1 :=
  (C2_polling_terminates_bounded (fun _ => NearbyOutcome.ok 2) true).2.2.1
    ⟨1, by decide, by decide, by decide⟩

/-- C3: the client's backend interface is as stated — trip creation is
`POST /api/trips/request`, driver acceptance is `POST /api/trips/:id/accept`,
nearby-driver lookup is `GET /api/drivers/nearby`, and the socket
subscriptions used for trip state include `trip-updated` and `trip-accepted`
on the rider side and `new-trip-request` and `trip-updated` on the driver
side. -/
theorem C3_interface_boundary :
    (createTripRequestCall.method = .post
      ∧ createTripRequestCall.path = "/api/trips/request")
    ∧ (∀ tid, (acceptTripCall tid).method = .post
        ∧ (acceptTripCall tid).path = "/api/trips/" ++ tid ++ "/accept")
    ∧ (∀ la ln, (nearbyDriversCall la ln).method = .get
        ∧ (nearbyDriversCall la ln).path = "/api/drivers/nearby")
    ∧ "trip-updated" ∈ riderSocketSubscriptions
    ∧ "trip-accepted" ∈ riderSocketSubscriptions
    ∧ "new-trip-request" ∈ driverSocketSubscriptions
    ∧ "trip-updated" ∈ driverSocketSubscriptions := by
  refine ⟨⟨rfl, rfl⟩, fun tid => ⟨rfl, rfl⟩, fun la ln => ⟨rfl, rfl⟩, ?_, ?_, ?_, ?_⟩ <;>
    simp [riderSocketSubscriptions, driverSocketSubscriptions]

/-- C4: `toggleAvailability` PATCHes the negation of the current
`isAvailable` to `/api/drivers/availability`; the local flag becomes that
negation exactly when the request succeeds, a failed request leaves the state
unchanged, and turning the flag off empties the pending trip-request list. -/
theorem C4_toggle_availability (s : DriverClientState) (ok : Bool) :
    (toggleAvailability s ok).2 = !s.isAvailable
    ∧ (ok = true → (toggleAvailability s ok).1.isAvailable = !s.isAvailable)
    ∧ (ok = false → (toggleAvailability s ok).1 = s)
    ∧ (ok = true → s.isAvailable = true →
        (toggleAvailability s ok).1.tripRequests = []) := by
  cases ok <;> cases h : s.isAvailable <;> simp [toggleAvailability, h]

/-- Witness for the C4 theorem: an online driver with a pending request whose
toggle request succeeds goes offline with an emptied request list, having
sent `isAvailable = false`. -/
theorem C4_toggle_availability_witness :
    (toggleAvailability sampleOnlineDriver true).1.tripRequests = []
    ∧ (toggleAvailability sampleOnlineDriver true).2 = !sampleOnlineDriver.isAvailable :=
  ⟨(C4_toggle_availability sampleOnlineDriver true).2.2.2 rfl rfl,
   (C4_toggle_availability sampleOnlineDriver true).1⟩

/-- C7: socket rooms are joined per trip — the rider's `connect` handler
emits `joinRideRoom` with the current `rideId`; the driver emits
`joinRideRoom` with the accepted trip's id on a successful acceptance, and on
reconnection with an active trip `fetchDriverState` emits `joinRideRoom` with
that trip's id while making it the active trip. -/
theorem C7_socket_rooms_per_trip (s : RiderClientState) (rid : String)
    (hActive : s.rideId = some rid) (d : DriverClientState) (tid : String)
    (trip : STrip) (avail : Bool) :
    riderConnectEmit s = .joinRideRoom (some rid)
    ∧ (acceptTrip d tid (some trip)).2 = [.joinRideRoom (some tid)]
    ∧ (fetchDriverState d (some (avail, some trip))).2
        = [.joinRideRoom (some trip._id)]
    ∧ (fetchDriverState d (some (avail, some trip))).1.activeTrip = some trip := by
  refine ⟨?_, rfl, rfl, rfl⟩
  simp [riderConnectEmit, hActive]

/-- Witness for the C7 theorem: with ride `ride-1` active, the rider's
connect handler emits `joinRideRoom ride-1`. -/
theorem C7_socket_rooms_per_trip_witness :
    riderConnectEmit riderWithRide = .joinRideRoom (some "ride-1") :=
  (C7_socket_rooms_per_trip riderWithRide "ride-1" rfl driverInitState "trip-1"
    sampleAcceptedTrip false).1

/-- Helper: every driver-client handler step preserves the gating invariant
"an active trip implies unavailability". -/
lemma driverStep_preserves_gating {s s' : DriverClientState}
    (hs : s.activeTrip ≠ none → s.isAvailable = false)
    (hstep : DriverStep s s') : s'.activeTrip ≠ none → s'.isAvailable = false := by
  cases hstep with
  | toggle ok hguard =>
      intro h'
      exfalso
      apply h'
      cases ok <;> simp [toggleAvailability, hguard]
  | accept tid resp =>
      cases resp with
      | some trip => intro _; rfl
      | none => exact hs
  | act a resp =>
      cases ha : s.activeTrip with
      | none => simpa [handleTripAction, ha] using hs
      | some tr =>
          cases resp with
          | none => simpa [handleTripAction, ha] using hs
          | some u =>
              cases a with
              | start =>
                  intro _
                  simpa [handleTripAction, ha] using hs (by simp [ha])
              | complete =>
                  simp [handleTripAction, ha]
  | newReq t =>
      have h1 : (onNewTripRequest s t).isAvailable = s.isAvailable := by
        unfold onNewTripRequest
        split <;> rfl
      have h2 : (onNewTripRequest s t).activeTrip = s.activeTrip := by
        unfold onNewTripRequest
        split <;> rfl
      rw [h1, h2]
      exact hs
  | unavail tid =>
      simpa [onTripUnavailable] using hs
  | updated t =>
      cases ha : s.activeTrip with
      | none => simpa [onTripUpdated, ha] using hs
      | some a =>
          by_cases hid : a._id = t._id
          · by_cases hcan : t.status = .CANCELLED
            · simp [onTripUpdated, ha, hid, hcan]
            · by_cases hcom : t.status = .COMPLETED
              · simp [onTripUpdated, ha, hid, hcan, hcom]
              · intro _
                simpa [onTripUpdated, ha, hid, hcan, hcom] using hs (by simp [ha])
          · simpa [onTripUpdated, ha, hid] using hs

/-- C9: in every reachable driver-client state, an active trip implies the
availability flag is off, and the `new-trip-request` handler changes the
pending-request list only when the driver is available with no active trip.
Reachability starts at the mounted state, runs `fetchDriverState` once, and
applies handlers with arbitrary server responses; the availability toggle
carries its button's guard (disabled while a trip is active). -/
theorem C9_driver_gating_invariant (s : DriverClientState)
    (h : DriverReachable s) :
    (s.activeTrip ≠ none → s.isAvailable = false)
    ∧ (∀ t, (onNewTripRequest s t).tripRequests ≠ s.tripRequests →
        s.isAvailable = true ∧ s.activeTrip = none) := by
  constructor
  · induction h with
    | boot resp =>
        cases resp with
        | none => simp [fetchDriverState, driverInitState]
        | some p =>
            obtain ⟨avail, tripOpt⟩ := p
            cases tripOpt with
            | none => simp [fetchDriverState, driverInitState]
            | some trip => simp [fetchDriverState, driverInitState]
    | step hreach hstep ih =>
        exact driverStep_preserves_gating ih hstep
  · intro t hne
    unfold onNewTripRequest at hne
    by_cases hc : (s.isAvailable && s.activeTrip.isNone) = true
    · simp only [Bool.and_eq_true, Option.isNone_iff_eq_none] at hc
      exact hc
    · rw [if_neg hc] at hne
      exact absurd rfl hne

/-- Witness for the C9 theorem: after booting and accepting trip `trip-1`,
the driver has an active trip and the invariant yields `isAvailable =
false`. -/
theorem C9_driver_gating_invariant_witness :
    (acceptTrip driverInitState "trip-1" (some sampleAcceptedTrip)).1.isAvailable
      = false :=
  (C9_driver_gating_invariant _
    (DriverReachable.step (DriverReachable.boot none)
      (DriverStep.accept driverInitState "trip-1" (some sampleAcceptedTrip)))).1
    (by decide)

/-- C10: when the accept POST fails, the driver client removes the failed
trip from the incoming request list and changes nothing else — `activeTrip`
(in particular, it stays `null` if it was `null`) and `isAvailable` keep
their prior values. -/
theorem C10_accept_failure_atomicity (s : DriverClientState) (tid : String) :
    (acceptTrip s tid none).1.isAvailable = s.isAvailable
    ∧ (acceptTrip s tid none).1.activeTrip = s.activeTrip
    ∧ (acceptTrip s tid none).1.tripRequests
        = s.tripRequests.filter (fun t => t._id ≠ tid)
    ∧ (s.activeTrip = none → (acceptTrip s tid none).1.activeTrip = none) := by
  refine ⟨rfl, rfl, rfl, fun h => ?_⟩
  simp [acceptTrip, h]

/-- Witness for the C10 theorem: a failed accept from the online driver with
one pending request leaves `activeTrip` null. -/
theorem C10_accept_failure_atomicity_witness :
    (acceptTrip sampleOnlineDriver "trip-2" none).1.activeTrip = none :=
  (C10_accept_failure_atomicity sampleOnlineDriver "trip-2").2.2.2 rfl

end TaxiApp
